import Mathlib

/-!
Shallow embedding of the virt-manager engine core
(`src/virtManager/engine.py`) and of the TPM device defaults
(`src/virtinst/devices/tpm.py`), with theorems checking the
natural-language specification against the code.
-/

namespace VirtManager

/-- Python exceptions as the engine code distinguishes them:
`KeyboardInterrupt` (re-raised by `_tick`, not caught by
`except Exception`), `libvirt.libvirtError` carrying an error domain and
code, `RuntimeError` with a message, and any other exception. -/
inductive PyExc where
  | keyboardInterrupt : PyExc
  | libvirtError : Int → Int → PyExc
  | runtimeError : String → PyExc
  | otherError : String → PyExc
deriving DecidableEq, Repr

/-- Python's `except Exception` matches every exception here other than
`KeyboardInterrupt` (which derives only from `BaseException`). -/
def isException : PyExc → Bool
  | .keyboardInterrupt => false
  | _ => true

/-- Matches Python's `except libvirt.libvirtError`. -/
def isLibvirtError : PyExc → Bool
  | .libvirtError _ _ => true
  | _ => false

/-- `str(e)` for an exception, used when the engine builds error messages. -/
def pyStr : PyExc → String
  | .keyboardInterrupt => "KeyboardInterrupt"
  | .libvirtError d c => "libvirt error domain " ++ toString d ++ " code " ++ toString c
  | .runtimeError m => m
  | .otherError m => m

/-- libvirt constant `VIR_FROM_REMOTE` (error domain of the remote driver). -/
def VIR_FROM_REMOTE : Int := 13

/-- libvirt constant `VIR_FROM_RPC` (error domain of the RPC layer). -/
def VIR_FROM_RPC : Int := 7

/-- libvirt constant `VIR_ERR_SYSTEM_ERROR`. -/
def VIR_ERR_SYSTEM_ERROR : Int := 38

/-- The classification test from `vmmEngine._tick`:
`dom in [from_remote, from_rpc] and code in [sys_error]`. -/
def isTransientRemote : PyExc → Bool
  | .libvirtError dom code =>
      (dom == VIR_FROM_REMOTE || dom == VIR_FROM_RPC) && code == VIR_ERR_SYSTEM_ERROR
  | _ => false

/-! ### The refresh pass (`vmmEngine._tick`) -/

/-- One registered connection as seen by a refresh pass: its URI and the
outcome of its `conn.tick()` call (`none` = returned normally,
`some e` = raised `e`). -/
structure TickConnResult where
  uri : String
  fault : Option PyExc
deriving DecidableEq, Repr

/-- What the refresh pass did for one connection: whether
`idle_add(conn.close)` was scheduled, whether a deferred
`err.show_err` notification was scheduled, and whether the fault was
logged via `logging.exception`. -/
structure ConnOutcome where
  uri : String
  closed : Bool
  errShown : Bool
  loggedExc : Bool
deriving DecidableEq, Repr

/-- Outcome of the `except libvirt.libvirtError` handler body in
`vmmEngine._tick` for one connection (also covers the no-fault case).
On a libvirt fault, the transient-remote test picks logging versus a
deferred error dialog, and `idle_add(conn.close)` runs in both branches
(it sits after the `if`/`else`, still inside the `except` block). -/
def tickOutcome (c : TickConnResult) : ConnOutcome :=
  match c.fault with
  | none => { uri := c.uri, closed := false, errShown := false, loggedExc := false }
  | some e =>
      let transient := isTransientRemote e
      { uri := c.uri, closed := true, errShown := !transient, loggedExc := transient }

/-- `vmmEngine._tick`: iterate over the registered connections, calling
`conn.tick()` on each. `KeyboardInterrupt` is re-raised; a
`libvirt.libvirtError` is handled per `tickOutcome` and the loop
continues; any other exception is uncaught and aborts the pass. -/
def engineTickRun : List TickConnResult → Except PyExc (List ConnOutcome)
  | [] => .ok []
  | c :: rest =>
      match c.fault with
      | none =>
          (engineTickRun rest).map (fun outs => tickOutcome c :: outs)
      | some .keyboardInterrupt => .error .keyboardInterrupt
      | some (.libvirtError _ _) =>
          (engineTickRun rest).map (fun outs => tickOutcome c :: outs)
      | some e => .error e

/-! ### Window counter (`increment_window_counter` / `decrement_window_counter`) -/

/-- A call to one of the two window-counter mutators. -/
inductive WinOp where
  | inc : WinOp
  | dec : WinOp
deriving DecidableEq, Repr

/-- The counter update: `increment_window_counter` does `self.windows += 1`,
`decrement_window_counter` does `self.windows -= 1`, with no guard. -/
def winStep (n : Int) : WinOp → Int
  | .inc => n + 1
  | .dec => n - 1

/-- The window counter after a sequence of calls, starting from
`self.windows = 0` as set in `vmmEngine.__init__`. -/
def winRun (ops : List WinOp) : Int :=
  ops.foldl winStep 0

/-! ### The tick scheduler (`vmmEngine.tick`) -/

/-- The scheduler state: `hasThread` is whether `self._tick_thread` is no
longer `None`, `slow` is `self._tick_thread_slow`. -/
structure TickState where
  hasThread : Bool
  slow : Bool
deriving DecidableEq, Repr

/-- The state at `vmmEngine.__init__`: `_tick_thread = None`,
`_tick_thread_slow = False`. -/
def tickInit : TickState := { hasThread := false, slow := false }

/-- Observable effects of one `tick()` call: whether a new worker thread
was started, whether the slow-tick warning was logged, and the return
value (1 keeps the GLib timer armed). -/
structure TickOut where
  started : Bool
  loggedSlow : Bool
  ret : Nat
deriving DecidableEq, Repr

/-- `vmmEngine.tick`: `alive` is the result of
`self._tick_thread.isAlive()`. If a previous worker exists and is alive,
log the slow warning when `_tick_thread_slow` is not yet set, set it, and
return 1 without starting a worker; otherwise start a fresh worker thread
and return 1. Nothing ever resets `_tick_thread_slow`. -/
def tickStep (s : TickState) (alive : Bool) : TickState × TickOut :=
  match s.hasThread && alive with
  | true =>
      ({ hasThread := s.hasThread, slow := true },
       { started := false, loggedSlow := !s.slow, ret := 1 })
  | false =>
      ({ hasThread := true, slow := s.slow },
       { started := true, loggedSlow := false, ret := 1 })

/-- Run `tick()` over a list of liveness observations, collecting the
per-call outputs. -/
def tickRun (s : TickState) : List Bool → TickState × List TickOut
  | [] => (s, [])
  | a :: rest =>
      let (s1, o) := tickStep s a
      let (s2, os) := tickRun s1 rest
      (s2, o :: os)

/-- How many of the calls in a run logged the slow-tick warning. -/
def countLogged : List TickOut → Nat
  | [] => 0
  | o :: rest => (if o.loggedSlow then 1 else 0) + countLogged rest

/-! ### The reboot action (`_do_reboot_domain`'s `reboot_cb`) -/

/-- `reboot_cb` from `vmmEngine._do_reboot_domain`, with the external
calls supplied as data: `isNosupport` is `virtinst.util.is_error_nosupport`,
`rebootRes` the outcome of `vm.reboot()` and `manualRes` the outcome of
`vm.manual_reboot()` (`none` = success, `some e` = raised `e`). Returns
the call's outcome paired with whether the emulated reboot was attempted.
`vm.reboot()`'s fault is caught by `except Exception` (so a
`KeyboardInterrupt` propagates); the fallback's bare `except:` catches
everything and re-raises a `RuntimeError` built from the original fault. -/
def reboot_cb (isNosupport : PyExc → Bool) (rebootRes manualRes : Option PyExc) :
    Except PyExc Unit × Bool :=
  match rebootRes with
  | none => (.ok (), false)
  | some e =>
      if isException e then
        if isNosupport e then
          match manualRes with
          | none => (.ok (), true)
          | some _ =>
              (.error (.runtimeError ("Error rebooting domain: " ++ pyStr e)), true)
        else
          (.error (.runtimeError ("Error rebooting domain: " ++ pyStr e)), false)
      else
        (.error e, false)

/-! ### The connection registry (`self.conns` and its operations) -/

/-- One entry of `self.conns`: the connection object (identified by a
fresh numeric id) plus the lazily-filled dialog cache
(`windowHost`, `windowDetails` keyed by VM uuid, `windowClone`),
each dialog identified by a numeric handle. -/
structure ConnEntry where
  connId : Nat
  windowHost : Option Nat
  windowDetails : List (String × Nat)
  windowClone : Option Nat
deriving DecidableEq, Repr

/-- Events emitted via `self.emit`. -/
inductive Event where
  | connAdded : String → Event
  | connRemoved : String → Event
deriving DecidableEq, Repr

/-- The engine state touched by the registry operations: the `self.conns`
dict (insertion-ordered association list, as a Python dict), a fresh-id
counter for newly constructed objects, the emitted events, the persisted
known-URI list (`self.config`), the set of objects whose `cleanup()` was
called, and the log. -/
structure EngineState where
  conns : List (String × ConnEntry)
  nextId : Nat
  events : List Event
  savedUris : List String
  cleaned : List Nat
  logged : List String
deriving DecidableEq, Repr

/-- `vmmEngine._check_conn`: `self.conns.get(uri)`, returning the entry's
connection when present. -/
def check_conn (s : EngineState) (uri : String) : Option Nat :=
  (s.conns.lookup uri).map (·.connId)

/-- `vmmEngine.add_conn_to_ui`: return the existing connection if the URI
is already registered; otherwise construct a fresh `vmmConnection`, store
a new entry with an empty dialog cache, and emit `conn-added`. -/
def add_conn_to_ui (s : EngineState) (uri : String) : Nat × EngineState :=
  match check_conn s uri with
  | some c => (c, s)
  | none =>
      let c := s.nextId
      let entry : ConnEntry :=
        { connId := c, windowHost := none, windowDetails := [], windowClone := none }
      (c, { s with
              conns := s.conns ++ [(uri, entry)],
              nextId := s.nextId + 1,
              events := s.events ++ [.connAdded uri] })

/-- `add_conn_to_ui` iterated: a sequence of calls with the same URI,
collecting each call's return value. -/
def addManyConns (s : EngineState) (uri : String) : Nat → List Nat × EngineState
  | 0 => ([], s)
  | n + 1 =>
      ((add_conn_to_ui s uri).1
         :: (addManyConns (add_conn_to_ui s uri).2 uri n).1,
       (addManyConns (add_conn_to_ui s uri).2 uri n).2)

/-- Faults injectable at the four fallible external call sites covered
by `connect_to_uri`'s `try` block: `conn.tick()` inside `add_conn_to_ui`
(while ensuring the entry exists), `config.add_conn` (while persisting
the URI), `conn.set_autoconnect(...)`, and `conn.open()` (`none` = the
call returns normally). -/
structure ConnectEnv where
  tickFault : Option PyExc
  addConnFault : Option PyExc
  setAutoconnectFault : Option PyExc
  openFault : Option PyExc
deriving DecidableEq, Repr

/-- `vmmEngine.add_conn_to_ui` with the external `conn.tick()` call's
outcome injected. On a fresh URI the entry is stored in `self.conns`
first, then `conn.tick()` runs — a fault there propagates with the entry
already registered and the `conn-added` emission never reached. On an
already-registered URI the function returns early and `conn.tick()` is
not called. The state accompanies the outcome in both cases, as the
object's mutations persist across a raise. -/
def add_conn_to_ui_fallible (tickFault : Option PyExc) (s : EngineState)
    (uri : String) : Except PyExc Nat × EngineState :=
  match check_conn s uri with
  | some c => (.ok c, s)
  | none =>
      let s1 := { s with
        conns := s.conns ++ [(uri,
          { connId := s.nextId, windowHost := none,
            windowDetails := [], windowClone := none })],
        nextId := s.nextId + 1 }
      match tickFault with
      | some e => (.error e, s1)
      | none => (.ok s.nextId, { s1 with events := s1.events ++ [.connAdded uri] })

/-- The tail of `connect_to_uri`'s `try` body after the persist step:
`conn.set_autoconnect(bool(autoconnect))` when an autoconnect value was
given, then `conn.open()` when `do_start`, then `return conn`. -/
def connectTail (env : ConnectEnv) (s : EngineState) (c : Nat)
    (autoconnect : Option Bool) (do_start : Bool) :
    Except PyExc Nat × EngineState :=
  match autoconnect, env.setAutoconnectFault with
  | some _, some e => (.error e, s)
  | _, _ =>
      if do_start then
        match env.openFault with
        | some e => (.error e, s)
        | none => (.ok c, s)
      else (.ok c, s)

/-- The whole `try` body of `vmmEngine.connect_to_uri`: ensure the entry
exists (`add_conn_to_ui`, whose `conn.tick()` can fault), persist the URI
via `config.add_conn` when it is not yet on the known-URI list (a fault
in that call leaves the URI unpersisted), then autoconnect and open. A
fault at any site aborts the body, keeping the state as mutated so far. -/
def connectBody (env : ConnectEnv) (s : EngineState) (uri : String)
    (autoconnect : Option Bool) (do_start : Bool) :
    Except PyExc Nat × EngineState :=
  let r := add_conn_to_ui_fallible env.tickFault s uri
  match r.1 with
  | .error e => (.error e, r.2)
  | .ok c =>
      if uri ∈ r.2.savedUris then connectTail env r.2 c autoconnect do_start
      else
        match env.addConnFault with
        | some e => (.error e, r.2)
        | none =>
            connectTail env { r.2 with savedUris := r.2.savedUris ++ [uri] } c
              autoconnect do_start

/-- `vmmEngine.connect_to_uri`: run the `try` body; `except Exception`
logs the fault and returns `None`; a fault that net does not catch (a
`KeyboardInterrupt`) propagates to the caller, shown as `.error` in the
first component, alongside the state as mutated so far. -/
def connect_to_uri (env : ConnectEnv) (s : EngineState) (uri : String)
    (autoconnect : Option Bool) (do_start : Bool) :
    Except PyExc (Option Nat) × EngineState :=
  let r := connectBody env s uri autoconnect do_start
  match r.1 with
  | .ok c => (.ok (some c), r.2)
  | .error e =>
      match isException e with
      | true =>
          (.ok none,
           { r.2 with logged := r.2.logged ++ ["Error connecting to " ++ uri] })
      | false => (.error e, r.2)

/-- The dialog handles cached for one registry entry, in the order
`cleanup_conn` tears them down: host window, clone window, every per-VM
details window, then the connection object itself. -/
def entryCleanupIds (entry : ConnEntry) : List Nat :=
  entry.windowHost.toList ++ entry.windowClone.toList ++
    entry.windowDetails.map (·.2) ++ [entry.connId]

/-- `vmmEngine.cleanup_conn`: call `cleanup()` on the cached host dialog,
clone dialog, every details dialog, and the connection. The whole body is
wrapped in a bare `try`/`except` that only logs, so a missing URI
(`KeyError` on `self.conns[uri]`) is swallowed with a log line. -/
def cleanup_conn (s : EngineState) (uri : String) : EngineState :=
  match s.conns.lookup uri with
  | none => { s with logged := s.logged ++ ["Error cleaning up conn in engine"] }
  | some entry => { s with cleaned := s.cleaned ++ entryCleanupIds entry }

/-- `vmmEngine.remove_conn`: `cleanup_conn`, then `del self.conns[uri]`
(a `KeyError` on an unknown URI propagates), emit `conn-removed`, and
persist the removal via `config.remove_conn`. -/
def remove_conn (s : EngineState) (uri : String) : Except PyExc EngineState :=
  let s1 := cleanup_conn s uri
  if (s1.conns.lookup uri).isSome then
    .ok { s1 with
            conns := s1.conns.filter (fun p => p.1 ≠ uri),
            events := s1.events ++ [.connRemoved uri],
            savedUris := s1.savedUris.filter (· ≠ uri) }
  else .error (.otherError "KeyError")

/-- An engine state with nothing registered, matching `vmmEngine.__init__`
when no URIs are stored. -/
def emptyEngine : EngineState :=
  { conns := [], nextId := 0, events := [], savedUris := [],
    cleaned := [], logged := [] }

/-- The engine state after `connect_to_uri`'s persist step: the URI is
appended to the known-URI list when not already present. -/
def persistState (s1 : EngineState) (uri : String) : EngineState :=
  if uri ∈ s1.savedUris then s1
  else { s1 with savedUris := s1.savedUris ++ [uri] }

/-- Result shape of a `connect_to_uri` call that hit a fault caught by
`except Exception`: it returned `None` and the fault was logged. -/
def returnedNoneLogged (uri : String) :
    Except PyExc (Option Nat) × EngineState → Prop
  | (.ok none, s) => ("Error connecting to " ++ uri) ∈ s.logged
  | _ => False

/-- Result shape of a successful `connect_to_uri` call: it returned the
connection, and the URI is on the persisted known-URI list. -/
def returnedConnPersisted (uri : String) :
    Except PyExc (Option Nat) × EngineState → Prop
  | (.ok (some _), s) => uri ∈ s.savedUris
  | _ => False

/-! ### The details dialog launcher (`_show_vm_helper`) -/

/-- Page constant `DETAILS_PERF`. -/
def DETAILS_PERF : Nat := 1

/-- Page constant `DETAILS_CONFIG`. -/
def DETAILS_CONFIG : Nat := 2

/-- Page constant `DETAILS_CONSOLE`. -/
def DETAILS_CONSOLE : Nat := 3

/-- A `vmmDetails` dialog as `_show_vm_helper` observes it: whether it is
currently visible and which page is active (0 = the default page). -/
structure DetailsDialog where
  visible : Bool
  currentPage : Nat
deriving DecidableEq, Repr

/-- `vmmEngine._show_vm_helper` acting on the (cached or fresh) details
dialog: when `forcepage` is set or the dialog is not visible, activate the
page matching `page` (performance, config, console, or the default page
when no page was requested); then `details.show()` makes it visible and
brings it to front. -/
def show_vm_helper (d : DetailsDialog) (page : Option Nat) (forcepage : Bool) :
    DetailsDialog :=
  let d1 :=
    if forcepage || !d.visible then
      match page with
      | some p =>
          if p = DETAILS_PERF then { d with currentPage := p }
          else if p = DETAILS_CONFIG then { d with currentPage := p }
          else if p = DETAILS_CONSOLE then { d with currentPage := p }
          else d
      | none => { d with currentPage := 0 }
    else d
  { d1 with visible := true }

end VirtManager

namespace Virtinst

/-- A `DeviceTpm`'s XML-backed properties, each `none` when the attribute
is absent from the XML (`XMLProperty` returns `None` then). -/
structure DeviceTpm where
  type : Option String
  version : Option String
  model : Option String
  device_path : Option String
deriving DecidableEq, Repr

/-- Python truthiness test `not self.prop` for an `XMLProperty` string:
true when the property is unset (`None`) or the empty string. -/
def pyFalsy : Option String → Bool
  | none => true
  | some s => s == ""

/-- `DeviceTpm.TYPE_PASSTHROUGH`. -/
def TYPE_PASSTHROUGH : String := "passthrough"

/-- `DeviceTpm.MODEL_TIS`. -/
def MODEL_TIS : String := "tpm-tis"

/-- `DeviceTpm.set_defaults`: fill in `type` with `passthrough` when it is
unset/empty, then fill in `model` with `tpm-tis` when it is unset/empty.
No other property is touched. -/
def set_defaults (d : DeviceTpm) : DeviceTpm :=
  let d1 := if pyFalsy d.type then { d with type := some TYPE_PASSTHROUGH } else d
  if pyFalsy d1.model then { d1 with model := some MODEL_TIS } else d1

end Virtinst

open VirtManager Virtinst

/-! ## Theorems -/

/-- C10: after `DeviceTpm.set_defaults`, `type` and `model` are non-empty
(defaulting to `passthrough` and `tpm-tis`), a non-empty `type` or
`model` is left unchanged, and `version` and `device_path` are never
modified. -/
theorem C10_set_defaults_fills_type_and_model (d : DeviceTpm) :
    (set_defaults d).type
      = (if pyFalsy d.type then some TYPE_PASSTHROUGH else d.type) ∧
    (set_defaults d).model
      = (if pyFalsy d.model then some MODEL_TIS else d.model) ∧
    (set_defaults d).version = d.version ∧
    (set_defaults d).device_path = d.device_path ∧
    pyFalsy (set_defaults d).type = false ∧
    pyFalsy (set_defaults d).model = false := by
  have hp : pyFalsy (some TYPE_PASSTHROUGH) = false := by decide
  have hti : pyFalsy (some MODEL_TIS) = false := by decide
  cases htb : pyFalsy d.type <;> cases hmb : pyFalsy d.model <;>
    simp [set_defaults, htb, hmb, hp, hti]

/-- C9: `_show_vm_helper` with a requested sub-view page applies the
navigation exactly when the dialog was not already visible or the force
flag is set, and in all cases the dialog is then shown. -/
theorem C9_show_vm_navigation (d : DetailsDialog) (p : Nat) (force : Bool)
    (hp : p = DETAILS_PERF ∨ p = DETAILS_CONFIG ∨ p = DETAILS_CONSOLE) :
    (show_vm_helper d (some p) force).visible = true ∧
    (show_vm_helper d (some p) force).currentPage
      = (if force || !d.visible then p else d.currentPage) := by
  rcases hp with hp | hp | hp <;> subst hp <;>
    by_cases hc : (force || !d.visible) = true <;>
    simp [show_vm_helper, hc, DETAILS_PERF, DETAILS_CONFIG, DETAILS_CONSOLE]

/-- C9 witness: showing the console page with the force flag set on an
already-visible dialog navigates to the console page and shows the
dialog. -/
theorem C9_show_vm_navigation_witness :
    (show_vm_helper ⟨true, 0⟩ (some 3) true).visible = true ∧
    (show_vm_helper ⟨true, 0⟩ (some 3) true).currentPage = 3 := by
  have h := C9_show_vm_navigation ⟨true, 0⟩ 3 true (Or.inr (Or.inr rfl))
  exact ⟨h.1, h.2.trans (by simp)⟩

/-- C5: the reboot callback falls back to an emulated reboot exactly when
the hypervisor reported the operation unsupported; when the fallback also
fails, the reported error is built from the original reboot fault, not
the fallback's; any other reboot fault is reported without attempting
the fallback. -/
theorem C5_reboot_fallback (isNosupport : PyExc → Bool) (e : PyExc)
    (he : isException e = true) :
    (isNosupport e = true → ∀ e2,
      reboot_cb isNosupport (some e) (some e2)
        = (.error (.runtimeError ("Error rebooting domain: " ++ pyStr e)), true)) ∧
    (isNosupport e = true →
      reboot_cb isNosupport (some e) none = (.ok (), true)) ∧
    (isNosupport e = false → ∀ m,
      reboot_cb isNosupport (some e) m
        = (.error (.runtimeError ("Error rebooting domain: " ++ pyStr e)), false)) := by
  refine ⟨fun hn e2 => ?_, fun hn => ?_, fun hn m => ?_⟩ <;>
    simp [reboot_cb, he, hn]

/-- C5 witness: a concrete unsupported-reboot fault with a failing
fallback reports the original fault's message; a distinct fault skips the
fallback. -/
theorem C5_reboot_fallback_witness :
    reboot_cb (fun x => x == PyExc.libvirtError 7 3)
        (some (.libvirtError 7 3)) (some (.otherError "fallback boom"))
      = (.error (.runtimeError ("Error rebooting domain: "
          ++ pyStr (.libvirtError 7 3))), true) ∧
    reboot_cb (fun x => x == PyExc.libvirtError 7 3)
        (some (.otherError "other")) (some (.otherError "fallback boom"))
      = (.error (.runtimeError ("Error rebooting domain: "
          ++ pyStr (.otherError "other"))), false) := by
  constructor
  · exact (C5_reboot_fallback (fun x => x == PyExc.libvirtError 7 3)
      (.libvirtError 7 3) rfl).1 (by decide) (.otherError "fallback boom")
  · exact (C5_reboot_fallback (fun x => x == PyExc.libvirtError 7 3)
      (.otherError "other") rfl).2.2 (by decide) (some (.otherError "fallback boom"))

/-- Counter value of a window-counter run from an arbitrary start. -/
theorem winFold_eq (ops : List WinOp) (n : Int) :
    ops.foldl winStep n
      = n + (ops.count WinOp.inc : Int) - (ops.count WinOp.dec : Int) := by
  induction ops generalizing n with
  | nil => simp
  | cons o rest ih =>
      cases o <;> simp [winStep, ih, List.count_cons] <;> omega

/-- C2 counterexample: a single `decrement_window_counter` call from the
initial zero counter drives the counter to -1, which is negative — the
code has no guard. -/
theorem C2_counter_goes_negative :
    winRun [WinOp.dec] = -1 ∧ winRun [WinOp.dec] < 0 := by
  constructor <;> decide

/-- C2 (amended): the window counter after a sequence of calls equals the
number of increments minus the number of decrements; it stays non-negative
after each call exactly when no prefix of the sequence has more
decrements than increments (the code never guards against going
negative). -/
theorem C2_counter_balance (ops : List WinOp)
    (hbal : ∀ k, k ≤ ops.length →
      (ops.take k).count WinOp.dec ≤ (ops.take k).count WinOp.inc) :
    winRun ops = (ops.count WinOp.inc : Int) - (ops.count WinOp.dec : Int) ∧
    ∀ k, 0 ≤ winRun (ops.take k) := by
  constructor
  · simpa [winRun] using winFold_eq ops 0
  · intro k
    have hk : (ops.take k).count WinOp.dec ≤ (ops.take k).count WinOp.inc := by
      by_cases h : k ≤ ops.length
      · exact hbal k h
      · rw [List.take_of_length_le (Nat.le_of_lt (Nat.lt_of_not_le h))]
        simpa using hbal ops.length (le_refl _)
    have h1 : winRun (ops.take k)
        = ((ops.take k).count WinOp.inc : Int) - ((ops.take k).count WinOp.dec : Int) := by
      simpa [winRun] using winFold_eq (ops.take k) 0
    rw [h1]
    have : ((ops.take k).count WinOp.dec : Int) ≤ ((ops.take k).count WinOp.inc : Int) := by
      exact_mod_cast hk
    omega

/-- A run of `tick()` from a state with the slow flag already set never
logs the slow warning again (nothing resets `_tick_thread_slow`). -/
theorem tickRun_no_log_of_slow (inputs : List Bool) :
    ∀ s : TickState, s.slow = true → countLogged (tickRun s inputs).2 = 0 := by
  induction inputs with
  | nil => intro s hs; simp [tickRun, countLogged]
  | cons a rest ih =>
      intro s hs
      cases hc : s.hasThread && a <;>
        simp [tickRun, tickStep, hc, countLogged, hs] <;>
        exact ih _ (by simp [hs])

/-- Over any run of `tick()`, the slow warning is logged at most once
from a state with the flag clear, and never from a state with it set. -/
theorem tickRun_log_bound (inputs : List Bool) :
    ∀ s : TickState, countLogged (tickRun s inputs).2 ≤ if s.slow then 0 else 1 := by
  induction inputs with
  | nil => intro s; simp [tickRun, countLogged]
  | cons a rest ih =>
      intro s
      have hrest := tickRun_no_log_of_slow rest { hasThread := s.hasThread, slow := true } rfl
      cases hc : s.hasThread && a
      · have h := ih { hasThread := true, slow := s.slow }
        cases hs : s.slow <;>
          simp [tickRun, tickStep, hc, countLogged, hs] <;>
          simpa [hs] using h
      · cases hs : s.slow <;>
          simp [tickRun, tickStep, hc, countLogged, hs, hrest]

/-- C3 counterexample: after a skipped tick sets the slow flag, a later
non-skipped tick (which starts a fresh worker) does not reset the flag —
the claim's reset clause fails on the code, which never clears
`_tick_thread_slow`. -/
theorem C3_slow_flag_not_reset :
    ((tickRun tickInit [false, true, false]).2.map (·.started)
        = [true, false, true]) ∧
    (tickRun tickInit [false, true, false]).1.slow = true := by
  constructor <;> decide

/-- C3 (amended): a `tick()` while the previous worker is alive starts no
second worker, returns 1 so the timer stays armed, and sets the slow
flag; the slow warning is logged at most once over any whole run from the
initial state (the flag is never reset, so the warning cannot recur even
after non-skipped ticks); and the flag is monotone. -/
theorem C3_tick_skip_behavior :
    (∀ (s : TickState) (alive : Bool), s.hasThread = true → alive = true →
       (tickStep s alive).2.started = false ∧
       (tickStep s alive).2.ret = 1 ∧
       (tickStep s alive).1.slow = true) ∧
    (∀ (s : TickState) (alive : Bool), s.slow = true →
       (tickStep s alive).1.slow = true) ∧
    (∀ (s : TickState) (alive : Bool), (tickStep s alive).2.ret = 1) ∧
    (∀ inputs : List Bool, countLogged (tickRun tickInit inputs).2 ≤ 1) := by
  refine ⟨fun s alive h1 h2 => ?_, fun s alive hs => ?_, fun s alive => ?_, fun inputs => ?_⟩
  · simp [tickStep, h1, h2]
  · by_cases hc : (s.hasThread && alive) = true <;> simp [tickStep, hc, hs]
  · by_cases hc : (s.hasThread && alive) = true <;> simp [tickStep, hc]
  · simpa [tickInit] using tickRun_log_bound inputs tickInit

/-- C3 witness: concrete skipped tick (worker alive) starts no worker,
returns 1 and sets the flag; a five-call run with repeated skips logs the
warning at most once. -/
theorem C3_tick_skip_behavior_witness :
    (tickStep ⟨true, false⟩ true).2.started = false ∧
    (tickStep ⟨true, false⟩ true).2.ret = 1 ∧
    (tickStep ⟨true, false⟩ true).1.slow = true ∧
    countLogged (tickRun tickInit [false, true, true, false, true]).2 ≤ 1 := by
  have h := C3_tick_skip_behavior
  have h1 := h.1 ⟨true, false⟩ true rfl rfl
  exact ⟨h1.1, h1.2.1, h1.2.2, h.2.2.2 [false, true, true, false, true]⟩

/-- A refresh pass that completes produces exactly the per-connection
outcomes of `tickOutcome`, in order. -/
theorem engineTickRun_ok_map (cs : List TickConnResult) :
    ∀ outs, engineTickRun cs = .ok outs → outs = cs.map tickOutcome := by
  induction cs with
  | nil => intro outs h; simpa [engineTickRun] using h.symm
  | cons c rest ih =>
      intro outs h
      cases hf : c.fault with
      | none =>
          simp [engineTickRun, hf] at h
          cases hrest : engineTickRun rest with
          | error e => simp [hrest, Except.map] at h
          | ok os =>
              simp [hrest, Except.map] at h
              simp [← h, ih os hrest]
      | some e =>
          cases e with
          | keyboardInterrupt => simp [engineTickRun, hf] at h
          | libvirtError dom code =>
              simp [engineTickRun, hf] at h
              cases hrest : engineTickRun rest with
              | error e2 => simp [hrest, Except.map] at h
              | ok os =>
                  simp [hrest, Except.map] at h
                  simp [← h, ih os hrest]
          | runtimeError m => simp [engineTickRun, hf] at h
          | otherError m => simp [engineTickRun, hf] at h

/-- A refresh pass over connections whose only faults are libvirt faults
completes, covering every connection. -/
theorem engineTickRun_completes (cs : List TickConnResult)
    (h : ∀ c ∈ cs, ∀ e, c.fault = some e → isLibvirtError e = true) :
    engineTickRun cs = .ok (cs.map tickOutcome) := by
  induction cs with
  | nil => simp [engineTickRun]
  | cons c rest ih =>
      have hrest : engineTickRun rest = .ok (rest.map tickOutcome) :=
        ih (fun c hc e he => h c (List.mem_cons_of_mem _ hc) e he)
      cases hf : c.fault with
      | none => simp [engineTickRun, hf, hrest, Except.map]
      | some e =>
          have hl := h c (List.mem_cons_self _ _) e hf
          cases e with
          | keyboardInterrupt => simp [isLibvirtError] at hl
          | libvirtError dom code => simp [engineTickRun, hf, hrest, Except.map]
          | runtimeError m => simp [isLibvirtError] at hl
          | otherError m => simp [isLibvirtError] at hl

/-- C1 counterexample: a libvirt fault that is not classified as
transient remote-communication (error domain 0) still gets the
connection closed — `idle_add(conn.close)` runs outside the `if`/`else`
— contradicting the claim that the connection is NOT closed then. -/
theorem C1_nontransient_fault_closes_conn :
    isTransientRemote (.libvirtError 0 38) = false ∧
    engineTickRun [⟨"qemu:///system", some (.libvirtError 0 38)⟩]
      = .ok [{ uri := "qemu:///system", closed := true,
               errShown := true, loggedExc := false }] := by
  constructor
  · decide
  · rfl

/-- C1 (amended): in a completed refresh pass, every connection whose
status-refresh raised a libvirt fault classified as transient
remote-communication is closed with the fault only logged (no error
notification); on any other libvirt fault a deferred error notification
is surfaced and the connection is ALSO closed (the close is scheduled in
both branches). -/
theorem C1_tick_fault_classification (cs : List TickConnResult)
    (outs : List ConnOutcome) (h : engineTickRun cs = .ok outs) :
    outs = cs.map tickOutcome ∧
    ∀ c ∈ cs, ∀ e, c.fault = some e →
      (tickOutcome c).closed = true ∧
      (tickOutcome c).loggedExc = isTransientRemote e ∧
      (tickOutcome c).errShown = !isTransientRemote e := by
  refine ⟨engineTickRun_ok_map cs outs h, fun c hc e he => ?_⟩
  simp [tickOutcome, he]

/-- C1 witness: a transient remote fault (domain `VIR_FROM_REMOTE`, code
`VIR_ERR_SYSTEM_ERROR`) is closed and logged with no error notification. -/
theorem C1_tick_fault_classification_witness :
    (tickOutcome ⟨"qemu+ssh://host/system", some (.libvirtError 13 38)⟩).closed = true ∧
    (tickOutcome ⟨"qemu+ssh://host/system", some (.libvirtError 13 38)⟩).loggedExc = true ∧
    (tickOutcome ⟨"qemu+ssh://host/system", some (.libvirtError 13 38)⟩).errShown = false := by
  have h := C1_tick_fault_classification
      [⟨"qemu+ssh://host/system", some (.libvirtError 13 38)⟩]
      [{ uri := "qemu+ssh://host/system", closed := true,
         errShown := false, loggedExc := true }]
      rfl
  have h2 := h.2 ⟨"qemu+ssh://host/system", some (.libvirtError 13 38)⟩
      (List.mem_singleton.mpr rfl) (.libvirtError 13 38) rfl
  refine ⟨h2.1, ?_, ?_⟩
  · rw [h2.2.1]; decide
  · rw [h2.2.2]; decide

/-- C4 counterexample: a non-libvirt, non-cancellation fault
(`RuntimeError`-like) from one connection aborts the whole refresh pass
— the remaining connection is never refreshed — contradicting the claim
that only a cancellation request propagates. -/
theorem C4_nonlibvirt_fault_aborts_pass :
    engineTickRun [⟨"uriA", some (.otherError "boom")⟩, ⟨"uriB", none⟩]
      = .error (.otherError "boom") ∧
    PyExc.otherError "boom" ≠ PyExc.keyboardInterrupt := by
  exact ⟨rfl, by decide⟩

/-- C4 (amended): faults isolated per connection holds for libvirt
faults: when every fault raised in the pass is a libvirt fault, the pass
completes and every registered connection's refresh is attempted; a
cancellation request (`KeyboardInterrupt`) — and likewise any
non-libvirt fault — propagates immediately. -/
theorem C4_libvirt_faults_isolated (cs : List TickConnResult)
    (h : ∀ c ∈ cs, ∀ e, c.fault = some e → isLibvirtError e = true) :
    engineTickRun cs = .ok (cs.map tickOutcome) ∧
    ∀ pre c post, cs = pre ++ c :: post → c.fault = some .keyboardInterrupt →
      engineTickRun cs = .error .keyboardInterrupt := by
  refine ⟨engineTickRun_completes cs h, fun pre c post hsplit hke => ?_⟩
  exact absurd (h c (by simp [hsplit]) _ hke) (by simp [isLibvirtError])

/-- C4 witness: a pass over two connections where the first raises a
libvirt fault still refreshes the second. -/
theorem C4_libvirt_faults_isolated_witness :
    engineTickRun [⟨"uriA", some (.libvirtError 1 2)⟩, ⟨"uriB", none⟩]
      = .ok ([⟨"uriA", some (.libvirtError 1 2)⟩,
              (⟨"uriB", none⟩ : TickConnResult)].map tickOutcome) := by
  refine (C4_libvirt_faults_isolated _ ?_).1
  intro c hc e he
  rcases List.mem_cons.mp hc with h1 | h2
  · subst h1; cases he; rfl
  · rcases List.mem_singleton.mp h2 with h3
    subst h3; cases he

/-- Looking a key up in an appended dict skips a first block that does
not contain it. -/
theorem lookup_append_of_none {β : Type} (l1 l2 : List (String × β)) (a : String)
    (h : l1.lookup a = none) : (l1 ++ l2).lookup a = l2.lookup a := by
  induction l1 with
  | nil => simp
  | cons p rest ih =>
      obtain ⟨k, v⟩ := p
      simp only [List.lookup] at h
      simp only [List.cons_append, List.lookup]
      cases hk : a == k
      · rw [hk] at h; exact ih h
      · rw [hk] at h; cases h

/-- A key that a dict does not contain occurs zero times among its keys. -/
theorem count_keys_of_none {β : Type} (l : List (String × β)) (a : String)
    (h : l.lookup a = none) : (l.map Prod.fst).count a = 0 := by
  induction l with
  | nil => simp
  | cons p rest ih =>
      obtain ⟨k, v⟩ := p
      simp only [List.lookup] at h
      cases hk : a == k
      · rw [hk] at h
        have hka : (k == a) = false := by
          simp only [beq_eq_false_iff_ne] at hk ⊢
          exact fun h2 => hk h2.symm
        simp [List.count_cons, ih h, hka]
      · rw [hk] at h; cases h

/-- Filtering out a key makes lookup of that key fail. -/
theorem lookup_filter_ne {β : Type} (l : List (String × β)) (a : String) :
    (l.filter (fun p => p.1 ≠ a)).lookup a = none := by
  induction l with
  | nil => rfl
  | cons p rest ih =>
      obtain ⟨k, v⟩ := p
      by_cases hk : k = a
      · simpa [List.filter_cons, hk] using ih
      · have hak : (a == k) = false := by
          simp only [beq_eq_false_iff_ne]
          exact fun h2 => hk h2.symm
        simp only [List.filter_cons]
        simp [hk, List.lookup, hak, ih]
        exact fun x b hmem hxa hax => hxa hax.symm

/-- `add_conn_to_ui` on an already-registered URI returns the stored
connection and leaves the state untouched. -/
theorem add_conn_to_ui_existing (s : EngineState) (uri : String) (c : Nat)
    (h : check_conn s uri = some c) : add_conn_to_ui s uri = (c, s) := by
  simp [add_conn_to_ui, h]

/-- Iterating `add_conn_to_ui` on a registered URI keeps returning the
stored connection and never changes the state. -/
theorem addManyConns_stable (n : Nat) :
    ∀ (s : EngineState) (uri : String) (c : Nat), check_conn s uri = some c →
      addManyConns s uri n = (List.replicate n c, s) := by
  induction n with
  | zero => intro s uri c h; simp [addManyConns]
  | succ m ih =>
      intro s uri c h
      simp [addManyConns, add_conn_to_ui_existing s uri c h, ih s uri c h,
        List.replicate_succ]

/-- `add_conn_to_ui` on an unregistered URI stores a fresh entry with an
empty dialog cache and emits `conn-added`. -/
theorem add_conn_to_ui_new (s : EngineState) (uri : String)
    (h : check_conn s uri = none) :
    add_conn_to_ui s uri =
      (s.nextId,
       { conns := s.conns ++ [(uri,
           { connId := s.nextId, windowHost := none,
             windowDetails := [], windowClone := none })],
         nextId := s.nextId + 1,
         events := s.events ++ [Event.connAdded uri],
         savedUris := s.savedUris, cleaned := s.cleaned,
         logged := s.logged }) := by
  simp [add_conn_to_ui, h]

/-- C6: `add_conn_to_ui` is idempotent — over any sequence of calls with
the same (initially unregistered) URI, the registry ends with exactly one
entry for that URI, every call returns that entry's connection, and only
the first call emits `conn-added`. -/
theorem C6_add_conn_idempotent (s : EngineState) (uri : String) (n : Nat)
    (habs : s.conns.lookup uri = none) (hn : 1 ≤ n) :
    ((addManyConns s uri n).2.conns.map Prod.fst).count uri = 1 ∧
    check_conn (addManyConns s uri n).2 uri = some s.nextId ∧
    (∀ r ∈ (addManyConns s uri n).1, r = s.nextId) ∧
    (addManyConns s uri n).2.events.count (Event.connAdded uri)
      = s.events.count (Event.connAdded uri) + 1 := by
  obtain ⟨m, rfl⟩ : ∃ m, n = m + 1 := ⟨n - 1, (Nat.succ_pred_eq_of_pos hn).symm⟩
  have hchk : check_conn s uri = none := by simp [check_conn, habs]
  have hadd := add_conn_to_ui_new s uri hchk
  have hs1chk : check_conn (add_conn_to_ui s uri).2 uri = some s.nextId := by
    rw [hadd]
    simp only [check_conn]
    rw [lookup_append_of_none _ _ _ habs]
    simp [List.lookup]
  have hrun : addManyConns s uri (m + 1)
      = (s.nextId :: List.replicate m s.nextId, (add_conn_to_ui s uri).2) := by
    simp only [addManyConns]
    rw [addManyConns_stable m (add_conn_to_ui s uri).2 uri s.nextId hs1chk, hadd]
  rw [hrun]
  refine ⟨?_, hs1chk, ?_, ?_⟩
  · rw [hadd]
    simp [List.count_append, List.count_cons,
      count_keys_of_none s.conns uri habs]
  · intro r hr
    rcases List.mem_cons.mp hr with h1 | h2
    · exact h1
    · exact (List.eq_of_mem_replicate h2)
  · rw [hadd]
    simp [List.count_append, List.count_cons]

/-- C6 witness: three `add_conn_to_ui` calls on an empty registry leave
one entry, return its connection each time, and emit one `conn-added`. -/
theorem C6_add_conn_idempotent_witness :
    ((addManyConns emptyEngine "qemu:///system" 3).2.conns.map Prod.fst).count
        "qemu:///system" = 1 ∧
    check_conn (addManyConns emptyEngine "qemu:///system" 3).2 "qemu:///system"
      = some 0 ∧
    (addManyConns emptyEngine "qemu:///system" 3).2.events.count
        (Event.connAdded "qemu:///system") = 1 := by
  have h := C6_add_conn_idempotent emptyEngine "qemu:///system" 3 rfl (by decide)
  exact ⟨h.1, by simpa [emptyEngine] using h.2.1,
    by simpa [emptyEngine] using h.2.2.2⟩

/-- `cleanup_conn` on a registered URI only extends the cleaned-object
set with the entry's dialogs and connection. -/
theorem cleanup_conn_registered (s : EngineState) (uri : String)
    (entry : ConnEntry) (h : s.conns.lookup uri = some entry) :
    cleanup_conn s uri
      = { s with cleaned := s.cleaned ++ entryCleanupIds entry } := by
  simp [cleanup_conn, h]

/-- C7: for every registered URI, `remove_conn` succeeds, tears down the
entry's cached dialogs (host, clone, every per-VM details dialog) and the
connection, removes the registry entry so the dialog cache for that URI
is unreachable, emits `conn-removed` exactly once, and persists the
removal by dropping the URI from the stored list. -/
theorem C7_remove_conn_teardown (s : EngineState) (uri : String)
    (entry : ConnEntry) (h : s.conns.lookup uri = some entry) :
    remove_conn s uri = .ok
      { conns := s.conns.filter (fun p => p.1 ≠ uri),
        nextId := s.nextId,
        events := s.events ++ [Event.connRemoved uri],
        savedUris := s.savedUris.filter (· ≠ uri),
        cleaned := s.cleaned ++ entryCleanupIds entry,
        logged := s.logged } ∧
    ∀ s', remove_conn s uri = .ok s' →
      s'.conns.lookup uri = none ∧
      (∀ d ∈ entryCleanupIds entry, d ∈ s'.cleaned) ∧
      s'.events.count (Event.connRemoved uri)
        = s.events.count (Event.connRemoved uri) + 1 ∧
      uri ∉ s'.savedUris := by
  have hok : remove_conn s uri = .ok
      { conns := s.conns.filter (fun p => p.1 ≠ uri),
        nextId := s.nextId,
        events := s.events ++ [Event.connRemoved uri],
        savedUris := s.savedUris.filter (· ≠ uri),
        cleaned := s.cleaned ++ entryCleanupIds entry,
        logged := s.logged } := by
    rw [remove_conn, cleanup_conn_registered s uri entry h]
    simp [h]
  refine ⟨hok, fun s' hs' => ?_⟩
  rw [hok] at hs'
  cases hs'
  refine ⟨lookup_filter_ne s.conns uri, fun d hd => ?_, ?_, ?_⟩
  · exact List.mem_append_right _ hd
  · simp [List.count_append, List.count_cons]
  · simp [List.mem_filter]

/-- C7 witness: removing a registered connection with a host dialog, a
clone dialog and one details dialog cleans all of them plus the
connection, empties the registry, emits one `conn-removed` and drops the
stored URI. -/
theorem C7_remove_conn_teardown_witness :
    remove_conn
        { conns := [("qemu:///system",
            { connId := 5, windowHost := some 10,
              windowDetails := [("vm-uuid-1", 11)], windowClone := some 12 })],
          nextId := 6, events := [], savedUris := ["qemu:///system"],
          cleaned := [], logged := [] } "qemu:///system"
      = .ok
        { conns := [], nextId := 6,
          events := [Event.connRemoved "qemu:///system"],
          savedUris := [], cleaned := [10, 12, 11, 5], logged := [] } ∧
    (10 ∈ ([10, 12, 11, 5] : List Nat) ∧ 5 ∈ ([10, 12, 11, 5] : List Nat)) := by
  have h := C7_remove_conn_teardown
      { conns := [("qemu:///system",
          { connId := 5, windowHost := some 10,
            windowDetails := [("vm-uuid-1", 11)], windowClone := some 12 })],
        nextId := 6, events := [], savedUris := ["qemu:///system"],
        cleaned := [], logged := [] } "qemu:///system"
      { connId := 5, windowHost := some 10,
        windowDetails := [("vm-uuid-1", 11)], windowClone := some 12 }
      (by simp [List.lookup])
  refine ⟨h.1.trans ?_, by decide, by decide⟩
  simp [entryCleanupIds]

/-- After the persist step of `connect_to_uri` the URI is on the saved
known-URI list, whether or not it was already there. -/
theorem mem_persistedUris (s1 : EngineState) (uri : String) :
    uri ∈ (persistState s1 uri).savedUris := by
  by_cases h : uri ∈ s1.savedUris <;> simp [persistState, h]

/-- `add_conn_to_ui_fallible` with no fault injected agrees with the
plain `add_conn_to_ui` model. -/
theorem add_conn_to_ui_fallible_none (s : EngineState) (uri : String) :
    add_conn_to_ui_fallible none s uri
      = (.ok (add_conn_to_ui s uri).1, (add_conn_to_ui s uri).2) := by
  cases h : check_conn s uri <;>
    simp [add_conn_to_ui_fallible, add_conn_to_ui, h]

/-- `add_conn_to_ui` never touches the persisted known-URI list. -/
theorem add_conn_to_ui_savedUris (s : EngineState) (uri : String) :
    (add_conn_to_ui s uri).2.savedUris = s.savedUris := by
  cases h : check_conn s uri <;> simp [add_conn_to_ui, h]

/-- An ensure-entry outcome can only fault with the injected
`conn.tick()` fault. -/
theorem add_conn_to_ui_fallible_error (tf : Option PyExc) (s : EngineState)
    (uri : String) (e : PyExc)
    (h : (add_conn_to_ui_fallible tf s uri).1 = .error e) : tf = some e := by
  cases hc : check_conn s uri with
  | some c => simp [add_conn_to_ui_fallible, hc] at h
  | none =>
      cases tf with
      | none => simp [add_conn_to_ui_fallible, hc] at h
      | some e2 =>
          simp [add_conn_to_ui_fallible, hc] at h
          simp [h]

/-- An autoconnect/open tail can only fault with one of its two injected
faults, and it never mutates the state on a fault. -/
theorem connectTail_error (env : ConnectEnv) (s : EngineState) (c : Nat)
    (a : Option Bool) (d : Bool) (e : PyExc) (s1 : EngineState)
    (h : connectTail env s c a d = (.error e, s1)) :
    s1 = s ∧ (env.setAutoconnectFault = some e ∨ env.openFault = some e) := by
  cases a <;> cases hsa : env.setAutoconnectFault <;>
    cases d <;> cases hof : env.openFault <;>
    simp [connectTail, hsa, hof] at h <;> simp_all

/-- Every fault aborting `connect_to_uri`'s `try` body is one of the four
injected faults: ensure-entry (`conn.tick`), persist (`config.add_conn`),
autoconnect, or open. -/
theorem connectBody_error_fault (env : ConnectEnv) (s : EngineState)
    (uri : String) (a : Option Bool) (d : Bool) (e : PyExc)
    (s1 : EngineState)
    (h : connectBody env s uri a d = (.error e, s1)) :
    env.tickFault = some e ∨ env.addConnFault = some e ∨
    env.setAutoconnectFault = some e ∨ env.openFault = some e := by
  simp only [connectBody] at h
  cases hr : (add_conn_to_ui_fallible env.tickFault s uri).1 with
  | error e2 =>
      rw [hr] at h
      simp at h
      exact Or.inl (by
        rw [add_conn_to_ui_fallible_error env.tickFault s uri e2 hr, h.1])
  | ok c =>
      rw [hr] at h
      simp only at h
      by_cases hmem :
          uri ∈ (add_conn_to_ui_fallible env.tickFault s uri).2.savedUris
      · rw [if_pos hmem] at h
        rcases connectTail_error env _ c a d e s1 h with ⟨_, h2⟩
        exact Or.inr (Or.inr h2)
      · rw [if_neg hmem] at h
        cases haf : env.addConnFault with
        | some e2 =>
            rw [haf] at h
            simp at h
            exact Or.inr (Or.inl (by rw [h.1]))
        | none =>
            rw [haf] at h
            rcases connectTail_error env _ c a d e s1 h with ⟨_, h2⟩
            exact Or.inr (Or.inr h2)

/-- With no fault injected, the `try` body returns the (existing or
fresh) connection and the state after the persist step. -/
theorem connectBody_no_faults (env : ConnectEnv) (s : EngineState)
    (uri : String) (a : Option Bool) (d : Bool)
    (h1 : env.tickFault = none) (h2 : env.addConnFault = none)
    (h3 : env.setAutoconnectFault = none) (h4 : env.openFault = none) :
    connectBody env s uri a d
      = (.ok (add_conn_to_ui s uri).1,
         persistState (add_conn_to_ui s uri).2 uri) := by
  simp only [connectBody, h1, add_conn_to_ui_fallible_none]
  by_cases hmem : uri ∈ (add_conn_to_ui s uri).2.savedUris <;>
    cases a <;> cases d <;>
    simp [hmem, h2, h3, h4, connectTail, persistState]

/-- C8 counterexample: a `KeyboardInterrupt` raised while opening the
connection escapes `connect_to_uri`'s `except Exception` net and
propagates to the caller, so "never raises for every fault" fails. -/
theorem C8_interrupt_propagates :
    (connect_to_uri
        { tickFault := none, addConnFault := none,
          setAutoconnectFault := none, openFault := some .keyboardInterrupt }
        emptyEngine "qemu:///system" none true).1
      = .error .keyboardInterrupt := rfl

/-- C8 (amended): `connect_to_uri` never raises for any fault that is an
ordinary exception: for every such fault raised while ensuring the entry
exists, persisting the URI, setting autoconnect, or opening the
connection, the call returns `None` and logs the fault; on success it
returns the connection, having persisted the URI to the known-URI list
if it was not already present. A cancellation (`KeyboardInterrupt`),
which `except Exception` does not catch, propagates to the caller. -/
theorem C8_connect_to_uri_catches_exceptions (env : ConnectEnv)
    (s : EngineState) (uri : String) (autoconnect : Option Bool)
    (do_start : Bool)
    (h1 : ∀ e, env.tickFault = some e → isException e = true)
    (h2 : ∀ e, env.addConnFault = some e → isException e = true)
    (h3 : ∀ e, env.setAutoconnectFault = some e → isException e = true)
    (h4 : ∀ e, env.openFault = some e → isException e = true) :
    (∀ e, (connect_to_uri env s uri autoconnect do_start).1 ≠ .error e) ∧
    (∀ e s1, connectBody env s uri autoconnect do_start = (.error e, s1) →
       connect_to_uri env s uri autoconnect do_start
         = (.ok none,
            { s1 with
                logged := s1.logged ++ ["Error connecting to " ++ uri] })) ∧
    (∀ e, s.conns.lookup uri = none → env.tickFault = some e →
       returnedNoneLogged uri
         (connect_to_uri env s uri autoconnect do_start)) ∧
    (∀ e, env.tickFault = none → uri ∉ s.savedUris →
       env.addConnFault = some e →
       returnedNoneLogged uri
         (connect_to_uri env s uri autoconnect do_start)) ∧
    (∀ e b, env.tickFault = none → env.addConnFault = none →
       autoconnect = some b → env.setAutoconnectFault = some e →
       returnedNoneLogged uri
         (connect_to_uri env s uri autoconnect do_start)) ∧
    (∀ e, env.tickFault = none → env.addConnFault = none →
       env.setAutoconnectFault = none → do_start = true →
       env.openFault = some e →
       returnedNoneLogged uri
         (connect_to_uri env s uri autoconnect do_start)) ∧
    (env.tickFault = none → env.addConnFault = none →
     env.setAutoconnectFault = none → env.openFault = none →
       returnedConnPersisted uri
         (connect_to_uri env s uri autoconnect do_start)) := by
  have hB : ∀ e s1,
      connectBody env s uri autoconnect do_start = (.error e, s1) →
      connect_to_uri env s uri autoconnect do_start
        = (.ok none,
           { s1 with
               logged := s1.logged ++ ["Error connecting to " ++ uri] }) := by
    intro e s1 hb
    have he : isException e = true := by
      rcases connectBody_error_fault env s uri autoconnect do_start e s1 hb
        with hf | hf | hf | hf
      exacts [h1 e hf, h2 e hf, h3 e hf, h4 e hf]
    simp [connect_to_uri, hb, he]
  have hNL : ∀ e,
      (connectBody env s uri autoconnect do_start).1 = .error e →
      returnedNoneLogged uri
        (connect_to_uri env s uri autoconnect do_start) := by
    intro e hr1
    have hb : connectBody env s uri autoconnect do_start
        = (.error e, (connectBody env s uri autoconnect do_start).2) := by
      rw [← hr1]
    rw [hB e _ hb]
    simp [returnedNoneLogged]
  refine ⟨?_, hB, ?_, ?_, ?_, ?_, ?_⟩
  · intro e
    cases hr1 : (connectBody env s uri autoconnect do_start).1 with
    | ok c => simp [connect_to_uri, hr1]
    | error e2 =>
        have hb : connectBody env s uri autoconnect do_start
            = (.error e2, (connectBody env s uri autoconnect do_start).2) := by
          rw [← hr1]
        rw [hB e2 _ hb]
        simp
  · intro e hlook htf
    refine hNL e ?_
    have hchk : check_conn s uri = none := by simp [check_conn, hlook]
    simp [connectBody, htf, add_conn_to_ui_fallible, hchk]
  · intro e htf hnmem haf
    refine hNL e ?_
    have hmem : uri ∉ (add_conn_to_ui s uri).2.savedUris := by
      rw [add_conn_to_ui_savedUris]; exact hnmem
    simp [connectBody, htf, add_conn_to_ui_fallible_none, hmem, haf]
  · intro e b htf haf ha hsa
    refine hNL e ?_
    subst ha
    by_cases hmem : uri ∈ (add_conn_to_ui s uri).2.savedUris <;>
      simp [connectBody, htf, haf, add_conn_to_ui_fallible_none, hmem,
        connectTail, hsa]
  · intro e htf haf hsa hds hof
    refine hNL e ?_
    subst hds
    by_cases hmem : uri ∈ (add_conn_to_ui s uri).2.savedUris <;>
      cases autoconnect <;>
      simp [connectBody, htf, haf, add_conn_to_ui_fallible_none, hmem,
        connectTail, hsa, hof]
  · intro htf haf hsa hof
    have hb := connectBody_no_faults env s uri autoconnect do_start
      htf haf hsa hof
    simp [connect_to_uri, hb, returnedConnPersisted]
    exact mem_persistedUris _ _

/-- C8 witness: an ordinary libvirt fault at the ensure-entry site
(`conn.tick()` inside `add_conn_to_ui`) is caught — the call does not
raise, returns `None` and logs; with no faults the call returns the
connection with the URI persisted. -/
theorem C8_connect_to_uri_catches_exceptions_witness :
    returnedNoneLogged "qemu:///system"
      (connect_to_uri
        { tickFault := some (.libvirtError 1 2), addConnFault := none,
          setAutoconnectFault := none, openFault := none }
        emptyEngine "qemu:///system" none true) ∧
    returnedConnPersisted "qemu:///system"
      (connect_to_uri
        { tickFault := none, addConnFault := none,
          setAutoconnectFault := none, openFault := none }
        emptyEngine "qemu:///system" none true) := by
  constructor
  · have h := C8_connect_to_uri_catches_exceptions
        { tickFault := some (.libvirtError 1 2), addConnFault := none,
          setAutoconnectFault := none, openFault := none }
        emptyEngine "qemu:///system" none true
        (fun e he => by cases he; rfl) (fun e he => by cases he)
        (fun e he => by cases he) (fun e he => by cases he)
    exact h.2.2.1 (.libvirtError 1 2) rfl rfl
  · have h := C8_connect_to_uri_catches_exceptions
        { tickFault := none, addConnFault := none,
          setAutoconnectFault := none, openFault := none }
        emptyEngine "qemu:///system" none true
        (fun e he => by cases he) (fun e he => by cases he)
        (fun e he => by cases he) (fun e he => by cases he)
    exact h.2.2.2.2.2.2 rfl rfl rfl rfl

/-- C2 witness: a balanced open/close sequence keeps the counter equal to
increments minus decrements and non-negative after each call. -/
theorem C2_counter_balance_witness :
    winRun [WinOp.inc, WinOp.dec]
      = (([WinOp.inc, WinOp.dec].count WinOp.inc : Int)
          - ([WinOp.inc, WinOp.dec].count WinOp.dec : Int)) ∧
    0 ≤ winRun ([WinOp.inc, WinOp.dec].take 1) := by
  have h := C2_counter_balance [WinOp.inc, WinOp.dec] (by decide)
  exact ⟨h.1, h.2 1⟩
